import Mathlib

/-!
Shallow embedding of the execution engine of `src/shell.c` (a simple shell:
builtins `cd`/`exit`, I/O redirection, pipelines), together with theorems
checking the specification claims against it.

Operating-system calls are modelled by an environment `Env` that fixes, for
one execution, which calls succeed.  Each process is described by the list of
effects (`Event`s) it performs and an `Outcome` (function return, process
exit, or image replacement by `execvp`).  Forked descendants are collected in
a process tree `ProcTree`.  File descriptors are natural numbers with the
POSIX convention 0/1/2 for standard input/output/error; the lowest free
descriptor in every reachable state of this program is 3, so a fresh `open`
yields 3 and a fresh `pipe` yields (3, 4), which the embedding uses directly.
-/

namespace MyShell

/-- `MAX_DIRNAME` from shell.c line 20. -/
def MAX_DIRNAME : Nat := 100

/-- The builtin kind stored in a `simple_command` by the parser
(`BUILTIN_CD`, `BUILTIN_EXIT`, or none). -/
inductive Builtin where
  | NONE
  | CD
  | EXIT
deriving DecidableEq

/-- Open flags actually used by shell.c: `O_RDONLY` is all-false,
`O_CREAT | O_RDWR | O_TRUNC` is all-true. -/
structure OpenFlags where
  o_rdwr : Bool
  o_creat : Bool
  o_trunc : Bool
deriving DecidableEq

/-- `O_RDONLY` (shell.c line 187). -/
def inputFlags : OpenFlags := ⟨false, false, false⟩

/-- `O_CREAT | O_RDWR | O_TRUNC` (shell.c lines 216 and 240). -/
def createTruncFlags : OpenFlags := ⟨true, true, true⟩

/-- One observable effect of a process.  Paths coming from `char *` fields
that may be NULL are `Option String`. -/
inductive Event where
  | openE (path : Option String) (flags : OpenFlags) (mode : Nat)
  | dup2E (oldfd newfd : Nat)
  | closeE (fd : Nat)
  | pipeE (rdfd wrfd : Nat)
  | forkE
  | waitE
  | execE (prog : String) (argv : List String)
  | perrorE (name : Option String)
  | msgStderr (msg : String)
  | chdirE (path : String)
deriving DecidableEq

/-- How a modelled function call in a given process ends: a normal return
with an `int` value, a process exit with a status, or replacement of the
process image by a successful `execvp`. -/
inductive Outcome where
  | ret (code : Int)
  | exited (status : Nat)
  | execd (prog : String) (argv : List String)
deriving DecidableEq

/-- The `simple_command` struct from parser.h as used by shell.c: the C field
`in` is called `inp` here because `in` is a Lean keyword. -/
structure SimpleCommand where
  tokens : List String
  inp : Option String
  out : Option String
  err : Option String
  builtin : Builtin
deriving DecidableEq

/-- The `command` tree from parser.h as used by shell.c: a node either wraps
a `simple_command` (field `scmd` set) or carries an operator and two child
commands (`oper`, `cmd1`, `cmd2`). -/
inductive Command where
  | simple (scmd : SimpleCommand)
  | complexCmd (oper : String) (cmd1 : Command) (cmd2 : Command)
deriving DecidableEq

/-- Outcomes of the operating-system calls for one execution.  A flag set to
`false` means every call of that kind fails (returns -1). -/
structure Env where
  openOk : Option String → Bool
  dup2Ok : Bool
  closeOk : Bool
  pipeOk : Bool
  forkOk : Bool
  waitOk : Bool
  execOk : String → Bool
  chdirOk : String → Bool

/-- The environment in which every operating-system call succeeds. -/
def okEnv : Env :=
  { openOk := fun _ => true
    dup2Ok := true
    closeOk := true
    pipeOk := true
    forkOk := true
    waitOk := true
    execOk := fun _ => true
    chdirOk := fun _ => true }

/-- A process: the events it performed, how it ended, and the processes it
forked.  A process here forks either no child (`leafP`) or exactly two
(`nodeP`), matching the code paths of shell.c. -/
inductive ProcTree where
  | leafP (events : List Event) (outcome : Outcome)
  | nodeP (events : List Event) (outcome : Outcome) (child1 child2 : ProcTree)
deriving DecidableEq

/-- Events of the root process of a tree. -/
def ProcTree.events : ProcTree → List Event
  | .leafP e _ => e
  | .nodeP e _ _ _ => e

/-- Outcome of the root process of a tree. -/
def ProcTree.outcome : ProcTree → Outcome
  | .leafP _ o => o
  | .nodeP _ o _ _ => o

/-- Number of processes forked by the root process and all its descendants. -/
def ProcTree.spawned : ProcTree → Nat
  | .leafP _ _ => 0
  | .nodeP _ _ a b => 2 + a.spawned + b.spawned

/-- First token of a token list, the program name passed to `execvp`. -/
def progOf (tokens : List String) : String := tokens.headD ""

/-- `execute_command` (shell.c lines 141-161): `execvp(tokens[0], tokens)`;
on failure `perror(tokens[0]); exit(1)`. -/
def execute_command (env : Env) (tokens : List String) : List Event × Outcome :=
  if env.execOk (progOf tokens) then
    ([Event.execE (progOf tokens) tokens], Outcome.execd (progOf tokens) tokens)
  else
    ([Event.perrorE (some (progOf tokens))], Outcome.exited 1)

/-- One redirection block of `execute_nonbuiltin` (shell.c lines 182-259):
open `openPath` (on failure `perror(errName); exit(1)`), `dup2` the new
descriptor (always 3, the lowest free one) onto `target`, then close it;
any failure prints an error and exits this process with status 1. -/
def redirect_stream (env : Env) (openPath : Option String) (errName : Option String)
    (flags : OpenFlags) (mode : Nat) (target : Nat) : List Event × Option Outcome :=
  if env.openOk openPath then
    if env.dup2Ok then
      if env.closeOk then
        ([Event.openE openPath flags mode, Event.dup2E 3 target, Event.closeE 3], none)
      else
        ([Event.openE openPath flags mode, Event.dup2E 3 target,
          Event.perrorE (some "close")], some (Outcome.exited 1))
    else
      ([Event.openE openPath flags mode, Event.perrorE (some "dup2")],
       some (Outcome.exited 1))
  else
    ([Event.perrorE errName], some (Outcome.exited 1))

/-- Sequencing of one redirection block with the rest of the function: a
block that set a process exit ends the function there with the events so
far; otherwise its events are followed by the rest. -/
def afterStep (step : List Event × Option Outcome) (k : List Event × Outcome) :
    List Event × Outcome :=
  match step with
  | (evs, some o) => (evs, o)
  | (evs, none) => (evs ++ k.1, k.2)

/-- `execute_nonbuiltin` (shell.c lines 167-261): the `in`, `out` and `err`
blocks in order, each exiting the process on failure, then `execvp`.  Note
the `err` block at line 240 opens `s->in` (not `s->err`) while naming
`s->err` in its error message, exactly as the C source does. -/
def execute_nonbuiltin (env : Env) (s : SimpleCommand) : List Event × Outcome :=
  afterStep
    (match s.inp with
     | none => ([], none)
     | some p => redirect_stream env (some p) (some p) inputFlags 0 0)
    (afterStep
      (match s.out with
       | none => ([], none)
       | some p => redirect_stream env (some p) (some p) createTruncFlags 0o664 1)
      (afterStep
        (match s.err with
         | none => ([], none)
         | some _ => redirect_stream env s.inp s.err createTruncFlags 0o664 2)
        (execute_command env s.tokens)))

/-- Truncation of a string to its first `n` characters (the effect of a
bounded `strncat` into a fixed buffer). -/
def strTake (s : String) (n : Nat) : String := String.mk (s.data.take n)

/-- Modelled from the spec: `is_relative` is declared in parser.h, which is
not under src/; the spec (section 4.2) describes the test as whether the path
is syntactically absolute, so a path is relative exactly when it does not
begin with the path separator. -/
def is_relative (path : String) : Bool :=
  match path.data with
  | [] => true
  | c :: _ => c != '/'

/-- The composed path built by the relative branch of `execute_cd`
(shell.c lines 120-125): `dir` holds the working directory, then
`strncat(dir, "/", 1)` and `strncat(dir, path, MAX_DIRNAME-strlen(dir)-1)`. -/
def cd_compose (cwd path : String) : String :=
  let dir := cwd ++ "/"
  dir ++ strTake path (MAX_DIRNAME - dir.length - 1)

/-- Result of `execute_cd`: events performed, the resulting working
directory, and the C return value (`EXIT_SUCCESS` = 0, `EXIT_FAILURE` = 1). -/
structure CdResult where
  events : List Event
  cwd : String
  ret : Nat
deriving DecidableEq

/-- `execute_cd` (shell.c lines 88-130).  `getcwd(dir, MAX_DIRNAME-2)`
succeeds exactly when the working directory and its terminator fit in
`MAX_DIRNAME - 2` bytes.  A successful `chdir` makes its argument the new
working directory; a failed one leaves it unchanged.  The NULL-array check
`!words` has no counterpart for a Lean list and is subsumed by the
element checks. -/
def execute_cd (env : Env) (cwd : String) (words : List String) : CdResult :=
  if words.get? 0 = none ∨ words.get? 1 = none ∨ words.get? 0 ≠ some "cd" then
    ⟨[], cwd, 1⟩
  else
    let p := (words.get? 1).getD ""
    if is_relative p = false then
      if env.chdirOk p then ⟨[Event.chdirE p], p, 0⟩
      else ⟨[Event.chdirE p], cwd, 1⟩
    else
      if cwd.length + 1 ≤ MAX_DIRNAME - 2 then
        let dir := cd_compose cwd p
        if env.chdirOk dir then ⟨[Event.chdirE dir], dir, 0⟩
        else ⟨[Event.chdirE dir], cwd, 1⟩
      else ⟨[], cwd, 1⟩

/-- Result of `execute_simple_command` in the interpreter process: the events
the interpreter itself performed, the child it forked (if any), the resulting
working directory, and the returned `int` (0 to continue, -1 to stop). -/
structure SimpleResult where
  events : List Event
  child : Option ProcTree
  cwd : String
  ret : Int
deriving DecidableEq

/-- `execute_simple_command` (shell.c lines 267-320): `exit` returns -1 with
no effects; `cd` runs `execute_cd` in-process and diagnoses failure; anything
else forks a child that runs `execute_nonbuiltin` while the parent waits
(failures of `fork` and `wait` are reported and the function returns 0). -/
def execute_simple_command (env : Env) (cwd : String) (cmd : SimpleCommand) :
    SimpleResult :=
  if cmd.builtin = Builtin.EXIT then
    ⟨[], none, cwd, -1⟩
  else if cmd.builtin = Builtin.CD then
    let r := execute_cd env cwd cmd.tokens
    if r.ret = 1 then
      if cmd.tokens.get? 1 = none then
        ⟨r.events ++ [Event.msgStderr "Path expected after cd"], none, r.cwd, 0⟩
      else
        ⟨r.events ++ [Event.perrorE (cmd.tokens.get? 1)], none, r.cwd, 0⟩
    else
      ⟨r.events, none, r.cwd, 0⟩
  else
    if env.forkOk then
      let c := execute_nonbuiltin env cmd
      if env.waitOk then
        ⟨[Event.forkE, Event.waitE], some (ProcTree.leafP c.1 c.2), cwd, 0⟩
      else
        ⟨[Event.forkE, Event.perrorE (some "wait")],
         some (ProcTree.leafP c.1 c.2), cwd, 0⟩
    else
      ⟨[Event.forkE, Event.perrorE (some "fork")], none, cwd, 0⟩

/-- The `exit(0)` a pipeline child performs after its recursive
`execute_complex_command` returns (shell.c lines 407 and 441). -/
def post_exit0 : Outcome → Outcome
  | Outcome.ret _ => Outcome.exited 0
  | o => o

/-- A pipeline child process: its descriptor set-up events, then whatever the
recursive execution did; a normal return becomes `exit(0)`. -/
def wrapChild (setup : List Event) : ProcTree → ProcTree
  | .leafP evs o => .leafP (setup ++ evs) (post_exit0 o)
  | .nodeP evs o a b => .nodeP (setup ++ evs) (post_exit0 o) a b

/-- `execute_complex_command` (shell.c lines 327-474).  A node with `scmd`
set runs `execute_nonbuiltin` in the current process (builtin kinds are not
consulted).  For operator `|`: create a pipe (read end 3, write end 4); the
first child closes 3, dup2s 4 onto standard output, closes 4 and recurses on
`cmd1`; the second child closes 4, dup2s 3 onto standard input, closes 3 and
recurses on `cmd2`; the parent closes both ends and waits for both children.
Failures of pipe/fork/close/waitpid print an error and exit the failing
process with status 1. -/
def execute_complex_command (env : Env) : Command → ProcTree
  | Command.simple s =>
    ProcTree.leafP (execute_nonbuiltin env s).1 (execute_nonbuiltin env s).2
  | Command.complexCmd oper c1 c2 =>
    if oper = "|" then
      if env.pipeOk then
        if env.forkOk then
          let child1 :=
            if env.closeOk then
              if env.dup2Ok then
                if env.closeOk then
                  wrapChild [Event.closeE 3, Event.dup2E 4 1, Event.closeE 4]
                    (execute_complex_command env c1)
                else
                  ProcTree.leafP [Event.closeE 3, Event.dup2E 4 1,
                    Event.perrorE (some "close")] (Outcome.exited 1)
              else
                ProcTree.leafP [Event.closeE 3, Event.perrorE (some "dup2")]
                  (Outcome.exited 1)
            else
              ProcTree.leafP [Event.perrorE (some "close")] (Outcome.exited 1)
          let child2 :=
            if env.closeOk then
              if env.dup2Ok then
                if env.closeOk then
                  wrapChild [Event.closeE 4, Event.dup2E 3 0, Event.closeE 3]
                    (execute_complex_command env c2)
                else
                  ProcTree.leafP [Event.closeE 4, Event.dup2E 3 0,
                    Event.perrorE (some "close")] (Outcome.exited 1)
              else
                ProcTree.leafP [Event.closeE 4, Event.perrorE (some "dup2")]
                  (Outcome.exited 1)
            else
              ProcTree.leafP [Event.perrorE (some "close")] (Outcome.exited 1)
          if env.closeOk then
            if env.waitOk then
              ProcTree.nodeP [Event.pipeE 3 4, Event.forkE, Event.forkE,
                Event.closeE 3, Event.closeE 4, Event.waitE, Event.waitE]
                (Outcome.ret 0) child1 child2
            else
              ProcTree.nodeP [Event.pipeE 3 4, Event.forkE, Event.forkE,
                Event.closeE 3, Event.closeE 4, Event.perrorE (some "waitpid")]
                (Outcome.exited 1) child1 child2
          else
            ProcTree.nodeP [Event.pipeE 3 4, Event.forkE, Event.forkE,
              Event.perrorE (some "close")] (Outcome.exited 1) child1 child2
        else
          ProcTree.leafP [Event.pipeE 3 4, Event.forkE, Event.perrorE (some "fork")]
            (Outcome.exited 1)
      else
        ProcTree.leafP [Event.perrorE (some "pipe")] (Outcome.exited 1)
    else
      ProcTree.leafP [] (Outcome.ret 0)

/-- What the main read loop (shell.c lines 63-75) does with one parsed
command: route through `execute_simple_command` when `scmd` is set, else
through `execute_complex_command`; a returned -1 stops the loop.  If the
interpreter process itself exits (a fatal orchestrator failure), the loop
never sees a return value. -/
inductive DriverStep where
  | cont
  | stop
  | terminated (status : Nat)
  | replaced (prog : String) (argv : List String)
deriving DecidableEq

/-- The execution dispatcher: the routing done by `main` (shell.c 63-75). -/
def dispatch (env : Env) (cwd : String) : Command → DriverStep
  | Command.simple s =>
    if (execute_simple_command env cwd s).ret = -1 then DriverStep.stop
    else DriverStep.cont
  | Command.complexCmd oper c1 c2 =>
    match (execute_complex_command env (Command.complexCmd oper c1 c2)).outcome with
    | Outcome.ret r => if r = -1 then DriverStep.stop else DriverStep.cont
    | Outcome.exited st => DriverStep.terminated st
    | Outcome.execd p a => DriverStep.replaced p a

/-- The right-leaning pipeline `s1 | s2 | ... | sn` as a command tree. -/
def pipelineOf : List SimpleCommand → Command
  | [] => Command.simple ⟨[], none, none, none, Builtin.NONE⟩
  | [s] => Command.simple s
  | s :: rest => Command.complexCmd "|" (Command.simple s) (pipelineOf rest)

/-- Whether an event is a pipe creation. -/
def isPipeEv : Event → Bool
  | Event.pipeE _ _ => true
  | _ => false

/-- Whether an event is a successful wait for a child. -/
def isWaitEv : Event → Bool
  | Event.waitE => true
  | _ => false

/-- Whether an event is a fork call. -/
def isForkEv : Event → Bool
  | Event.forkE => true
  | _ => false

/-- Pipes created by the whole process tree. -/
def ProcTree.pipesCreated : ProcTree → Nat
  | .leafP evs _ => evs.countP isPipeEv
  | .nodeP evs _ a b => evs.countP isPipeEv + a.pipesCreated + b.pipesCreated

/-- Processes of the tree that end by replacing their image with an external
program (the processes actually running pipeline stages). -/
def ProcTree.execCount : ProcTree → Nat
  | .leafP _ (Outcome.execd _ _) => 1
  | .leafP _ _ => 0
  | .nodeP _ _ a b => a.execCount + b.execCount

/-- Every orchestrating process of the tree performs one successful wait per
direct child before the end of its own event list, so no process of the tree
is abandoned: transitively, when the root returns, every spawned process has
been collected. -/
def ProcTree.reapsAll : ProcTree → Bool
  | .leafP _ _ => true
  | .nodeP evs _ a b => (evs.countP isWaitEv == 2) && a.reapsAll && b.reapsAll

/-- No event of the list is a `dup2`. -/
def noDup2 (evs : List Event) : Bool :=
  evs.all fun e => match e with
    | Event.dup2E _ _ => false
    | _ => true

/-- No event of the list is a `close`. -/
def noClose (evs : List Event) : Bool :=
  evs.all fun e => match e with
    | Event.closeE _ => false
    | _ => true

/-- No event of the list is an `open`. -/
def noOpen (evs : List Event) : Bool :=
  evs.all fun e => match e with
    | Event.openE _ _ _ => false
    | _ => true

/-- Every `close` of the list targets one of the two pipe descriptors the
process itself created (3 and 4); descriptors 0, 1, 2 are never closed. -/
def closesOnlyPipeFds (evs : List Event) : Bool :=
  evs.all fun e => match e with
    | Event.closeE fd => fd == 3 || fd == 4
    | _ => true

/-- Specification-side description of one complete redirection triplet:
open, make the descriptor the target stream, close the original. -/
def triplet (path : Option String) (flags : OpenFlags) (mode target : Nat) :
    List Event :=
  [Event.openE path flags mode, Event.dup2E 3 target, Event.closeE 3]

/-- The events the input-redirection block performs when it succeeds. -/
def inTrip (s : SimpleCommand) : List Event :=
  match s.inp with
  | none => []
  | some p => triplet (some p) inputFlags 0 0

/-- The events the output-redirection block performs when it succeeds. -/
def outTrip (s : SimpleCommand) : List Event :=
  match s.out with
  | none => []
  | some p => triplet (some p) createTruncFlags 0o664 1

/-- The events the error-redirection block performs when it succeeds; the
path opened is `s.inp`, as in shell.c line 240. -/
def errTrip (s : SimpleCommand) : List Event :=
  match s.err with
  | none => []
  | some _ => triplet s.inp createTruncFlags 0o664 2

/-- Some event of the list is a report through `perror`. -/
def hasPerror (evs : List Event) : Bool :=
  evs.any fun e => match e with
    | Event.perrorE _ => true
    | _ => false

/-- A plain external command `a`. -/
def cmdA : SimpleCommand := ⟨["a"], none, none, none, Builtin.NONE⟩

/-- A plain external command `b`. -/
def cmdB : SimpleCommand := ⟨["b"], none, none, none, Builtin.NONE⟩

/-- A plain external command `c`. -/
def cmdC : SimpleCommand := ⟨["c"], none, none, none, Builtin.NONE⟩

/-- A plain external command `ls`. -/
def cmdLs : SimpleCommand := ⟨["ls"], none, none, none, Builtin.NONE⟩

/-- An external command with both input and error redirection set. -/
def cmdInErr : SimpleCommand :=
  ⟨["prog"], some "in.txt", none, some "err.txt", Builtin.NONE⟩

/-- An external command with all three redirections set. -/
def cmdFull : SimpleCommand :=
  ⟨["p"], some "i", some "o", some "e", Builtin.NONE⟩

/-- The environment in which only `fork` fails. -/
def envNoFork : Env := { okEnv with forkOk := false }

/-- The environment in which only `chdir` fails. -/
def envNoChdir : Env := { okEnv with chdirOk := fun _ => false }

/-- A 97-character file name, long enough to overflow the cd path buffer. -/
def longB : String := String.mk (List.replicate 97 'b')

/-! ## General lemmas about the embedding -/

/-- Appending strings appends their character data. -/
theorem data_append (a b : String) : (a ++ b).data = a.data ++ b.data := rfl

/-- Strings with equal character data are equal. -/
theorem string_eq_of_data {s t : String} (h : s.data = t.data) : s = t := by
  cases s; cases t; exact congrArg String.mk h

/-- `hasPerror` distributes over appending. -/
theorem hasPerror_append (a b : List Event) :
    hasPerror (a ++ b) = (hasPerror a || hasPerror b) := by
  simp [hasPerror, List.any_append]

/-- A redirection block either performs its full open/dup/close triplet, or
sets a process exit with status 1 after a `perror` report. -/
theorem redirect_stream_spec (env : Env) (op en : Option String) (fl : OpenFlags)
    (md tg : Nat) :
    redirect_stream env op en fl md tg = (triplet op fl md tg, none) ∨
      ∃ evs, redirect_stream env op en fl md tg = (evs, some (Outcome.exited 1)) ∧
        hasPerror evs = true := by
  unfold redirect_stream
  split_ifs <;>
    first
      | exact Or.inl rfl
      | exact Or.inr ⟨_, rfl, by simp [hasPerror]⟩

/-- The input block performs `inTrip` or fails with a report. -/
theorem stepIn_spec (env : Env) (s : SimpleCommand) :
    (match s.inp with
      | none => (([] : List Event), (none : Option Outcome))
      | some p => redirect_stream env (some p) (some p) inputFlags 0 0) =
        (inTrip s, none) ∨
      ∃ evs, (match s.inp with
        | none => (([] : List Event), (none : Option Outcome))
        | some p => redirect_stream env (some p) (some p) inputFlags 0 0) =
          (evs, some (Outcome.exited 1)) ∧ hasPerror evs = true := by
  cases hi : s.inp with
  | none => exact Or.inl (by simp [inTrip, hi])
  | some p =>
    rcases redirect_stream_spec env (some p) (some p) inputFlags 0 0 with h | ⟨evs, h, hp⟩
    · exact Or.inl (by simp [inTrip, hi, h])
    · exact Or.inr ⟨evs, by simp [h], hp⟩

/-- The output block performs `outTrip` or fails with a report. -/
theorem stepOut_spec (env : Env) (s : SimpleCommand) :
    (match s.out with
      | none => (([] : List Event), (none : Option Outcome))
      | some p => redirect_stream env (some p) (some p) createTruncFlags 0o664 1) =
        (outTrip s, none) ∨
      ∃ evs, (match s.out with
        | none => (([] : List Event), (none : Option Outcome))
        | some p => redirect_stream env (some p) (some p) createTruncFlags 0o664 1) =
          (evs, some (Outcome.exited 1)) ∧ hasPerror evs = true := by
  cases ho : s.out with
  | none => exact Or.inl (by simp [outTrip, ho])
  | some p =>
    rcases redirect_stream_spec env (some p) (some p) createTruncFlags 0o664 1 with
      h | ⟨evs, h, hp⟩
    · exact Or.inl (by simp [outTrip, ho, h])
    · exact Or.inr ⟨evs, by simp [h], hp⟩

/-- The error block performs `errTrip` (opening `s.inp`) or fails with a
report. -/
theorem stepErr_spec (env : Env) (s : SimpleCommand) :
    (match s.err with
      | none => (([] : List Event), (none : Option Outcome))
      | some _ => redirect_stream env s.inp s.err createTruncFlags 0o664 2) =
        (errTrip s, none) ∨
      ∃ evs, (match s.err with
        | none => (([] : List Event), (none : Option Outcome))
        | some _ => redirect_stream env s.inp s.err createTruncFlags 0o664 2) =
          (evs, some (Outcome.exited 1)) ∧ hasPerror evs = true := by
  cases he : s.err with
  | none => exact Or.inl (by simp [errTrip, he])
  | some p =>
    rcases redirect_stream_spec env s.inp (some p) createTruncFlags 0o664 2 with
      h | ⟨evs, h, hp⟩
    · exact Or.inl (by simp [errTrip, he, h])
    · exact Or.inr ⟨evs, by simp [h], hp⟩

/-- Full characterization of `execute_nonbuiltin`: either every configured
redirection triplet completes and the image is replaced by `execvp` of the
first token, or the process exits with status 1 after a `perror` report. -/
theorem execute_nonbuiltin_spec (env : Env) (s : SimpleCommand) :
    execute_nonbuiltin env s =
        (inTrip s ++ outTrip s ++ errTrip s ++
          [Event.execE (progOf s.tokens) s.tokens],
         Outcome.execd (progOf s.tokens) s.tokens) ∨
      ((execute_nonbuiltin env s).2 = Outcome.exited 1 ∧
       hasPerror (execute_nonbuiltin env s).1 = true) := by
  unfold execute_nonbuiltin
  rcases stepIn_spec env s with h1 | ⟨evs1, h1, hp1⟩
  · rw [h1]
    rcases stepOut_spec env s with h2 | ⟨evs2, h2, hp2⟩
    · rw [h2]
      rcases stepErr_spec env s with h3 | ⟨evs3, h3, hp3⟩
      · rw [h3]
        by_cases hex : env.execOk (progOf s.tokens)
        · left
          unfold execute_command
          rw [if_pos hex]
          simp [afterStep, List.append_assoc]
        · right
          unfold execute_command
          rw [if_neg hex]
          simp [afterStep, hasPerror_append, hasPerror]
      · rw [h3]
        right
        simp [afterStep, hasPerror_append, hp3]
    · rw [h2]
      right
      simp [afterStep, hasPerror_append, hp2]
  · rw [h1]
    right
    simp [afterStep, hp1]

/-- `execute_nonbuiltin` either replaces the image with `execvp` of the first
token, or exits the current process with status 1 after a `perror` report. -/
theorem execute_nonbuiltin_outcome (env : Env) (s : SimpleCommand) :
    (execute_nonbuiltin env s).2 = Outcome.execd (progOf s.tokens) s.tokens ∨
      ((execute_nonbuiltin env s).2 = Outcome.exited 1 ∧
       hasPerror (execute_nonbuiltin env s).1 = true) := by
  rcases execute_nonbuiltin_spec env s with h | h
  · exact Or.inl (by rw [h])
  · exact Or.inr h

/-- `execute_simple_command` returns -1 exactly for the builtin `exit` and 0
otherwise. -/
theorem execute_simple_command_ret (env : Env) (cwd : String) (s : SimpleCommand) :
    (execute_simple_command env cwd s).ret =
      if s.builtin = Builtin.EXIT then -1 else 0 := by
  unfold execute_simple_command
  (repeat' split) <;> simp [apply_ite]

/-- When `execute_complex_command` returns at all (rather than exiting or
exec-ing), the returned value is 0. -/
theorem execute_complex_ret_eq_zero (env : Env) (c : Command) (r : Int)
    (h : (execute_complex_command env c).outcome = Outcome.ret r) : r = 0 := by
  cases c with
  | simple s =>
    rcases execute_nonbuiltin_outcome env s with h1 | h1
    · rw [execute_complex_command] at h
      rw [ProcTree.outcome] at h
      rw [h1] at h
      exact absurd h (by simp)
    · rw [execute_complex_command] at h
      rw [ProcTree.outcome] at h
      rw [h1.1] at h
      exact absurd h (by simp)
  | complexCmd oper c1 c2 =>
    unfold execute_complex_command at h
    (repeat' split at h) <;> simp_all [ProcTree.outcome]

/-- A pipeline node at the top level never makes the driver stop. -/
theorem dispatch_complex_ne_stop (env : Env) (cwd : String) (oper : String)
    (c1 c2 : Command) :
    dispatch env cwd (Command.complexCmd oper c1 c2) ≠ DriverStep.stop := by
  have hd : dispatch env cwd (Command.complexCmd oper c1 c2) =
      match (execute_complex_command env (Command.complexCmd oper c1 c2)).outcome with
      | Outcome.ret r => if r = -1 then DriverStep.stop else DriverStep.cont
      | Outcome.exited st => DriverStep.terminated st
      | Outcome.execd p a => DriverStep.replaced p a := rfl
  rw [hd]
  cases hoc : (execute_complex_command env (Command.complexCmd oper c1 c2)).outcome with
  | ret r =>
    have hr := execute_complex_ret_eq_zero env _ r hoc
    subst hr
    simp
  | exited st => simp
  | execd p a => simp

/-- The working directory is unchanged whenever `execute_cd` fails. -/
theorem execute_cd_fail_cwd (env : Env) (cwd : String) (w : List String)
    (h : (execute_cd env cwd w).ret = 1) : (execute_cd env cwd w).cwd = cwd := by
  unfold execute_cd at h ⊢
  dsimp only at h ⊢
  split_ifs at h ⊢ <;> simp_all

/-- `execute_cd` never forks. -/
theorem execute_cd_no_fork (env : Env) (cwd : String) (w : List String) :
    (execute_cd env cwd w).events.countP isForkEv = 0 := by
  unfold execute_cd
  dsimp only
  split_ifs <;> rfl

/-! ## Claim C4 -/

/-- Claim C4: the execution dispatcher returns STOP if and only if the
top-level command is the builtin `exit`, and then performs no events at all
(in particular zero forks); a leaf inside a pipeline runs through
`execute_nonbuiltin` (external-program lookup) whatever its builtin kind; and
a pipeline at the top level never yields STOP. -/
theorem c4_stop_iff_toplevel_exit :
    (∀ (env : Env) (cwd : String) (c : Command),
        dispatch env cwd c = DriverStep.stop ↔
          ∃ s, c = Command.simple s ∧ s.builtin = Builtin.EXIT)
    ∧ (∀ (env : Env) (cwd : String) (s : SimpleCommand), s.builtin = Builtin.EXIT →
        execute_simple_command env cwd s = ⟨[], none, cwd, -1⟩)
    ∧ (∀ (env : Env) (s : SimpleCommand),
        execute_complex_command env (Command.simple s) =
          ProcTree.leafP (execute_nonbuiltin env s).1 (execute_nonbuiltin env s).2)
    ∧ (∀ (env : Env) (cwd : String) (oper : String) (c1 c2 : Command),
        dispatch env cwd (Command.complexCmd oper c1 c2) ≠ DriverStep.stop) := by
  refine ⟨?_, ?_, ?_, ?_⟩
  · intro env cwd c
    cases c with
    | simple s =>
      have hd : dispatch env cwd (Command.simple s) =
          if (execute_simple_command env cwd s).ret = -1 then DriverStep.stop
          else DriverStep.cont := rfl
      have hr := execute_simple_command_ret env cwd s
      constructor
      · intro hstop
        rw [hd, hr] at hstop
        by_cases hb : s.builtin = Builtin.EXIT
        · exact ⟨s, rfl, hb⟩
        · rw [if_neg hb] at hstop
          simp at hstop
      · rintro ⟨s2, hs2, hb⟩
        cases hs2
        rw [hd, hr, if_pos hb]
        simp
    | complexCmd oper c1 c2 =>
      constructor
      · intro hstop
        exact absurd hstop (dispatch_complex_ne_stop env cwd oper c1 c2)
      · rintro ⟨s2, hs2, _⟩
        exact absurd hs2 (by simp)
  · intro env cwd s hb
    unfold execute_simple_command
    rw [if_pos hb]
  · intro env s
    rfl
  · intro env cwd oper c1 c2
    exact dispatch_complex_ne_stop env cwd oper c1 c2

/-- Witness for C4: `exit` at the top level stops the driver with no events,
while `exit` as a pipeline stage is exec-looked-up (and, when the lookup
fails, merely kills that child with status 1). -/
theorem c4_witness :
    dispatch okEnv "/" (Command.simple ⟨["exit"], none, none, none, Builtin.EXIT⟩) =
      DriverStep.stop
    ∧ execute_simple_command okEnv "/" ⟨["exit"], none, none, none, Builtin.EXIT⟩ =
      ⟨[], none, "/", -1⟩ := by
  constructor
  · rw [(c4_stop_iff_toplevel_exit.1 okEnv "/" _)]
    exact ⟨_, rfl, rfl⟩
  · exact c4_stop_iff_toplevel_exit.2.1 okEnv "/" _ rfl

/-! ## Claim C2 -/

/-- Claim C2 (code bug): on a command with both input and error redirection,
the stderr block of `execute_nonbuiltin` opens the file named by the *input*
path (`s->in`, shell.c line 240) with the create/truncate flags and mode
0664, and no open of the error path ever happens. -/
theorem c2_stderr_redirect_opens_input_path :
    (execute_nonbuiltin okEnv cmdInErr).1 =
      [Event.openE (some "in.txt") inputFlags 0, Event.dup2E 3 0, Event.closeE 3,
       Event.openE (some "in.txt") createTruncFlags 0o664, Event.dup2E 3 2,
       Event.closeE 3, Event.execE "prog" ["prog"]]
    ∧ ((execute_nonbuiltin okEnv cmdInErr).1.all fun e => match e with
        | Event.openE p _ _ => p != some "err.txt"
        | _ => true) = true := by
  constructor
  · rfl
  · decide

/-! ## Claim C3 -/

/-- Counterexample to C3: when `fork` fails while running a top-level leaf
external command, the interpreter reports it but *returns 0*, so the driver
continues the read loop instead of the shell ending. -/
theorem c3_counterexample :
    execute_simple_command envNoFork "/" cmdLs =
      ⟨[Event.forkE, Event.perrorE (some "fork")], none, "/", 0⟩
    ∧ dispatch envNoFork "/" (Command.simple cmdLs) = DriverStep.cont := by
  constructor <;> rfl

/-- Claim C3 as amended: failures of open/dup/close inside a redirecting
child exit that child with status 1 after a report; failures of
pipe/fork/close/waitpid inside the pipeline orchestrator exit the
orchestrating process with status 1 after a report; but a `fork` failure when
running a top-level leaf external command is only reported — the function
returns 0 and the read loop resumes. -/
theorem c3_fatal_failures :
    (∀ (env : Env) (s : SimpleCommand),
        (execute_nonbuiltin env s).2 = Outcome.execd (progOf s.tokens) s.tokens ∨
          ((execute_nonbuiltin env s).2 = Outcome.exited 1 ∧
           hasPerror (execute_nonbuiltin env s).1 = true))
    ∧ (∀ (env : Env) (c1 c2 : Command),
        env.pipeOk = false ∨ env.forkOk = false ∨ env.closeOk = false ∨
            env.waitOk = false →
          (execute_complex_command env (Command.complexCmd "|" c1 c2)).outcome =
            Outcome.exited 1
          ∧ hasPerror
              (execute_complex_command env (Command.complexCmd "|" c1 c2)).events =
            true)
    ∧ (∀ (env : Env) (cwd : String) (s : SimpleCommand),
        s.builtin = Builtin.NONE → env.forkOk = false →
          execute_simple_command env cwd s =
            ⟨[Event.forkE, Event.perrorE (some "fork")], none, cwd, 0⟩) := by
  refine ⟨execute_nonbuiltin_outcome, ?_, ?_⟩
  · intro env c1 c2 h
    unfold execute_complex_command
    cases hp : env.pipeOk <;> cases hf : env.forkOk <;> cases hc : env.closeOk <;>
      cases hw : env.waitOk <;>
      simp_all [ProcTree.outcome, ProcTree.events, hasPerror]
  · intro env cwd s hb hf
    unfold execute_simple_command
    rw [hb]
    rw [hf]
    rfl

/-- Witness for C3: a failing pipe call ends the orchestrating interpreter
process with status 1, and a failing fork on a leaf makes the loop resume. -/
theorem c3_witness :
    (execute_complex_command envNoFork
        (Command.complexCmd "|" (Command.simple cmdA) (Command.simple cmdB))).outcome =
      Outcome.exited 1
    ∧ execute_simple_command envNoFork "/" cmdA =
      ⟨[Event.forkE, Event.perrorE (some "fork")], none, "/", 0⟩ :=
  ⟨(c3_fatal_failures.2.1 envNoFork (Command.simple cmdA) (Command.simple cmdB)
      (Or.inr (Or.inl rfl))).1,
   c3_fatal_failures.2.2 envNoFork "/" cmdA rfl rfl⟩

/-! ## Claim C6 -/

/-- Claim C6: a top-level `cd` always leaves the driver running (returns 0),
never forks and never spawns a child; when `execute_cd` fails, the working
directory is unchanged and a diagnostic goes to standard error — "Path
expected after cd" when the argument is missing, otherwise `perror` naming
the offending path. -/
theorem c6_cd_failure_recoverable (env : Env) (cwd : String) (s : SimpleCommand)
    (hb : s.builtin = Builtin.CD) :
    (execute_simple_command env cwd s).ret = 0
    ∧ (execute_simple_command env cwd s).child = none
    ∧ (execute_simple_command env cwd s).events.countP isForkEv = 0
    ∧ ((execute_cd env cwd s.tokens).ret = 1 →
        (execute_simple_command env cwd s).cwd = cwd
        ∧ (if s.tokens.get? 1 = none
           then Event.msgStderr "Path expected after cd" ∈
             (execute_simple_command env cwd s).events
           else Event.perrorE (s.tokens.get? 1) ∈
             (execute_simple_command env cwd s).events)) := by
  have hcwd := execute_cd_fail_cwd env cwd s.tokens
  have hnf := execute_cd_no_fork env cwd s.tokens
  unfold execute_simple_command
  rw [hb]
  dsimp only
  (repeat' split) <;>
    simp_all [List.countP_append, isForkEv]

/-- Witness for C6: `cd nope` with a failing `chdir` keeps the working
directory, forks nothing, reports the path and lets the loop continue. -/
theorem c6_witness :
    (execute_simple_command envNoChdir "/" ⟨["cd", "nope"], none, none, none,
        Builtin.CD⟩).ret = 0
    ∧ (execute_simple_command envNoChdir "/" ⟨["cd", "nope"], none, none, none,
        Builtin.CD⟩).cwd = "/" := by
  have h := c6_cd_failure_recoverable envNoChdir "/"
    ⟨["cd", "nope"], none, none, none, Builtin.CD⟩ rfl
  exact ⟨h.1, (h.2.2.2 (by decide)).1⟩

/-! ## Claim C7 -/

/-- The events of `execute_cd` are at most one `chdir`. -/
theorem execute_cd_events_shape (env : Env) (cwd : String) (w : List String) :
    (execute_cd env cwd w).events = [] ∨
      ∃ pth, (execute_cd env cwd w).events = [Event.chdirE pth] := by
  unfold execute_cd
  dsimp only
  split_ifs <;> first | exact Or.inl rfl | exact Or.inr ⟨_, rfl⟩

/-- Claim C7: after any execution returns control to the driver, the
interpreter process has not touched its own standard descriptors: the
interpreter trace of a leaf execution contains no `dup2`, no `close` and no
`open` at all, and the orchestrating process of a pipeline performs no `dup2`
and no `open` and closes only the two pipe descriptors it itself created
(3 and 4) — every redirection `dup2` happens inside a forked child. -/
theorem c7_parent_descriptors_preserved :
    (∀ (env : Env) (cwd : String) (s : SimpleCommand),
        noDup2 (execute_simple_command env cwd s).events = true
        ∧ noClose (execute_simple_command env cwd s).events = true
        ∧ noOpen (execute_simple_command env cwd s).events = true)
    ∧ (∀ (env : Env) (oper : String) (c1 c2 : Command),
        noDup2 (execute_complex_command env (Command.complexCmd oper c1 c2)).events =
          true
        ∧ closesOnlyPipeFds
            (execute_complex_command env (Command.complexCmd oper c1 c2)).events =
          true
        ∧ noOpen (execute_complex_command env (Command.complexCmd oper c1 c2)).events =
          true) := by
  constructor
  · intro env cwd s
    have hsh := execute_cd_events_shape env cwd s.tokens
    unfold execute_simple_command
    dsimp only
    rcases hsh with h | ⟨pth, h⟩ <;> split_ifs <;>
      simp [h, noDup2, noClose, noOpen, List.all_append]
  · intro env oper c1 c2
    unfold execute_complex_command
    dsimp only
    split_ifs <;>
      simp [ProcTree.events, noDup2, closesOnlyPipeFds, noOpen]

/-! ## Claim C8 -/

/-- Claim C8: for an external command, each configured redirection performs
its complete open/dup/close triplet before the `exec` event is reached —
whenever the outcome is a successful exec, the trace is exactly the three
(possibly empty) triplets followed by the exec; any failure instead exits
only the one process performing the redirection, with status 1; and the
parent of a leaf execution returns 0 with a trace of only fork/wait/perror
events, so nothing propagates to it and nothing is retried. -/
theorem c8_redirection_triplets_atomic :
    ∀ (env : Env) (s : SimpleCommand),
      (∀ (p : String) (a : List String),
          (execute_nonbuiltin env s).2 = Outcome.execd p a →
            (execute_nonbuiltin env s).1 =
              inTrip s ++ outTrip s ++ errTrip s ++ [Event.execE p a])
      ∧ ((execute_nonbuiltin env s).2 = Outcome.execd (progOf s.tokens) s.tokens ∨
         (execute_nonbuiltin env s).2 = Outcome.exited 1)
      ∧ (∀ (cwd : String), s.builtin = Builtin.NONE →
          (execute_simple_command env cwd s).ret = 0
          ∧ ((execute_simple_command env cwd s).events.all fun e => match e with
              | Event.forkE => true
              | Event.waitE => true
              | Event.perrorE _ => true
              | _ => false) = true) := by
  intro env s
  refine ⟨?_, ?_, ?_⟩
  · intro p a hpa
    rcases execute_nonbuiltin_spec env s with h | h
    · rw [h] at hpa
      simp only [Outcome.execd.injEq] at hpa
      rw [h]
      dsimp only
      rw [← hpa.1, ← hpa.2]
    · rw [h.1] at hpa
      exact absurd hpa (by simp)
  · rcases execute_nonbuiltin_spec env s with h | h
    · exact Or.inl (by rw [h])
    · exact Or.inr h.1
  · intro cwd hb
    unfold execute_simple_command
    rw [hb]
    dsimp only
    split_ifs <;> simp_all

/-- Witness for C8: with all three redirections configured and every call
succeeding, the trace is the three triplets then the exec. -/
theorem c8_witness :
    (execute_nonbuiltin okEnv cmdFull).1 =
      inTrip cmdFull ++ outTrip cmdFull ++ errTrip cmdFull ++
        [Event.execE "p" ["p"]] :=
  (c8_redirection_triplets_atomic okEnv cmdFull).1 "p" ["p"] rfl

/-! ## Claim C9 -/

/-- Sequencing after a successful block appends the continuation. -/
theorem afterStep_none (evs : List Event) (k : List Event × Outcome) :
    afterStep (evs, none) k = (evs ++ k.1, k.2) := rfl

/-- A list around an embedded segment is an affix decomposition. -/
theorem exists_affix (a b c : List Event) :
    ∃ pre post, a ++ (b ++ c) = pre ++ b ++ post :=
  ⟨a, c, by rw [List.append_assoc]⟩

/-- When open, dup2 and close all succeed, a redirection block is exactly its
triplet. -/
theorem redirect_stream_success (env : Env) (op en : Option String)
    (fl : OpenFlags) (md tg : Nat) (ho : env.openOk op = true)
    (hd : env.dup2Ok = true) (hc : env.closeOk = true) :
    redirect_stream env op en fl md tg = (triplet op fl md tg, none) := by
  unfold redirect_stream
  rw [if_pos ho, if_pos hd, if_pos hc]
  rfl

/-- Claim C9: an external command with `outputPath` set opens that file with
`O_CREAT | O_RDWR | O_TRUNC` (read/write, create if absent, truncate if
present) and mode 0664, makes the new descriptor standard output via dup2,
then closes it — these three events appear contiguously in the child trace. -/
theorem c9_output_redirect_open_semantics :
    ∀ (env : Env) (s : SimpleCommand) (po : String),
      s.out = some po → env.openOk (some po) = true → env.dup2Ok = true →
      env.closeOk = true →
      (s.inp = none ∨ ∃ pi, s.inp = some pi ∧ env.openOk (some pi) = true) →
      (∃ pre post, (execute_nonbuiltin env s).1 =
        pre ++ [Event.openE (some po) createTruncFlags 0o664, Event.dup2E 3 1,
                Event.closeE 3] ++ post)
      ∧ createTruncFlags = ⟨true, true, true⟩ := by
  intro env s po hout ho hd hc hin
  refine ⟨?_, rfl⟩
  unfold execute_nonbuiltin
  have hstepO : (match s.out with
      | none => (([] : List Event), (none : Option Outcome))
      | some p => redirect_stream env (some p) (some p) createTruncFlags 0o664 1) =
      (triplet (some po) createTruncFlags 0o664 1, none) := by
    rw [hout]
    exact redirect_stream_success env (some po) (some po) createTruncFlags 0o664 1
      ho hd hc
  have hstepI : (match s.inp with
      | none => (([] : List Event), (none : Option Outcome))
      | some p => redirect_stream env (some p) (some p) inputFlags 0 0) =
      (inTrip s, none) := by
    rcases hin with h1 | ⟨pi, h1, hoi⟩
    · rw [h1]
      simp [inTrip, h1]
    · rw [h1]
      dsimp only
      rw [redirect_stream_success env (some pi) (some pi) inputFlags 0 0 hoi hd hc]
      simp [inTrip, h1]
  rw [hstepI, hstepO, afterStep_none, afterStep_none]
  simp only [triplet]
  exact exists_affix _ _ _

/-- Witness for C9: concrete command with input and output redirection in the
all-success environment. -/
theorem c9_witness :
    (∃ pre post, (execute_nonbuiltin okEnv cmdFull).1 =
      pre ++ [Event.openE (some "o") createTruncFlags 0o664, Event.dup2E 3 1,
              Event.closeE 3] ++ post)
    ∧ createTruncFlags = ⟨true, true, true⟩ :=
  c9_output_redirect_open_semantics okEnv cmdFull "o" rfl rfl rfl rfl
    (Or.inr ⟨"i", rfl, rfl⟩)

/-! ## Claim C1 -/

/-- Prefixing set-up events does not change how many processes a child tree
forks. -/
theorem wrapChild_spawned (setup : List Event) (t : ProcTree) :
    (wrapChild setup t).spawned = t.spawned := by
  cases t <;> rfl

/-- Prefixing pipe-free set-up events does not change the pipe count. -/
theorem wrapChild_pipes (setup : List Event) (t : ProcTree)
    (h : setup.countP isPipeEv = 0) :
    (wrapChild setup t).pipesCreated = t.pipesCreated := by
  cases t <;> simp [wrapChild, ProcTree.pipesCreated, List.countP_append, h]

/-- Prefixing set-up events (and turning a return into `exit(0)`) does not
change how many processes of the tree exec a program. -/
theorem wrapChild_execCount (setup : List Event) (t : ProcTree) :
    (wrapChild setup t).execCount = t.execCount := by
  cases t with
  | leafP evs o => cases o <;> rfl
  | nodeP evs o a b => rfl

/-- Prefixing wait-free set-up events does not change child collection. -/
theorem wrapChild_reaps (setup : List Event) (t : ProcTree)
    (h : setup.countP isWaitEv = 0) :
    (wrapChild setup t).reapsAll = t.reapsAll := by
  cases t <;> simp [wrapChild, ProcTree.reapsAll, List.countP_append, h]

/-- In the all-success environment a leaf of a pipeline creates no pipe,
forks nothing, and is exactly one exec-ing process. -/
theorem leaf_stats_okEnv (s : SimpleCommand) :
    (execute_complex_command okEnv (Command.simple s)).pipesCreated = 0
    ∧ (execute_complex_command okEnv (Command.simple s)).spawned = 0
    ∧ (execute_complex_command okEnv (Command.simple s)).execCount = 1
    ∧ (execute_complex_command okEnv (Command.simple s)).reapsAll = true := by
  rcases s with ⟨tk, i, o, e, b⟩
  cases i <;> cases o <;> cases e <;> exact ⟨rfl, rfl, rfl, rfl⟩

/-- In the all-success environment a pipe node is the parent trace
(pipe, two forks, two closes, two waits) over the two wrapped children. -/
theorem complex_ok_pipe_eq (c1 c2 : Command) :
    execute_complex_command okEnv (Command.complexCmd "|" c1 c2) =
      ProcTree.nodeP
        [Event.pipeE 3 4, Event.forkE, Event.forkE, Event.closeE 3, Event.closeE 4,
         Event.waitE, Event.waitE] (Outcome.ret 0)
        (wrapChild [Event.closeE 3, Event.dup2E 4 1, Event.closeE 4]
          (execute_complex_command okEnv c1))
        (wrapChild [Event.closeE 4, Event.dup2E 3 0, Event.closeE 3]
          (execute_complex_command okEnv c2)) := rfl

/-- In the all-success environment every call of `execute_nonbuiltin`
ends in a successful exec. -/
theorem nonbuiltin_okEnv_snd (s : SimpleCommand) :
    (execute_nonbuiltin okEnv s).2 = Outcome.execd (progOf s.tokens) s.tokens := by
  rcases s with ⟨tk, i, o, e, b⟩
  cases i <;> cases o <;> cases e <;> rfl

/-- A redirecting child never creates a pipe. -/
theorem nonbuiltin_no_pipe_okEnv (s : SimpleCommand) :
    List.countP isPipeEv (execute_nonbuiltin okEnv s).1 = 0 := by
  rcases s with ⟨tk, i, o, e, b⟩
  cases i <;> cases o <;> cases e <;> rfl

/-- A pipeline stage child in the all-success environment is one exec-ing
leaf process. -/
theorem wrap_leaf_okEnv (setup : List Event) (s : SimpleCommand) :
    wrapChild setup (execute_complex_command okEnv (Command.simple s)) =
      ProcTree.leafP (setup ++ (execute_nonbuiltin okEnv s).1)
        (Outcome.execd (progOf s.tokens) s.tokens) := by
  have h1 : execute_complex_command okEnv (Command.simple s) =
      ProcTree.leafP (execute_nonbuiltin okEnv s).1
        (execute_nonbuiltin okEnv s).2 := rfl
  rw [h1, nonbuiltin_okEnv_snd]
  rfl

/-- Resource statistics of a pipeline of `1 + ss.length` stages in the
all-success environment: `ss.length` pipes, `2 * ss.length` forked processes,
`ss.length + 1` exec-ing processes, and every orchestrator collects its
children. -/
theorem pipeline_stats (ss : List SimpleCommand) : ∀ (s : SimpleCommand),
    ((execute_complex_command okEnv (pipelineOf (s :: ss))).pipesCreated = ss.length)
    ∧ ((execute_complex_command okEnv (pipelineOf (s :: ss))).spawned = 2 * ss.length)
    ∧ ((execute_complex_command okEnv (pipelineOf (s :: ss))).execCount =
        ss.length + 1)
    ∧ ((execute_complex_command okEnv (pipelineOf (s :: ss))).reapsAll = true) := by
  induction ss with
  | nil =>
    intro s
    have hpl : pipelineOf [s] = Command.simple s := rfl
    rw [hpl]
    obtain ⟨h1, h2, h3, h4⟩ := leaf_stats_okEnv s
    exact ⟨h1, h2, h3, h4⟩
  | cons t ts ih =>
    intro s
    have hpl : pipelineOf (s :: t :: ts) =
        Command.complexCmd "|" (Command.simple s) (pipelineOf (t :: ts)) := rfl
    obtain ⟨hB1, hB2, hB3, hB4⟩ := ih t
    rw [hpl, complex_ok_pipe_eq, wrap_leaf_okEnv]
    set B := execute_complex_command okEnv (pipelineOf (t :: ts)) with hBdef
    refine ⟨?_, ?_, ?_, ?_⟩
    · simp only [ProcTree.pipesCreated]
      rw [wrapChild_pipes [Event.closeE 4, Event.dup2E 3 0, Event.closeE 3] B rfl,
        hB1, List.countP_append, nonbuiltin_no_pipe_okEnv]
      have e1 : List.countP isPipeEv
          [Event.pipeE 3 4, Event.forkE, Event.forkE, Event.closeE 3,
           Event.closeE 4, Event.waitE, Event.waitE] = 1 := rfl
      have e2 : List.countP isPipeEv
          [Event.closeE 3, Event.dup2E 4 1, Event.closeE 4] = 0 := rfl
      rw [e1, e2]
      simp [List.length_cons]
      omega
    · simp only [ProcTree.spawned]
      rw [wrapChild_spawned [Event.closeE 4, Event.dup2E 3 0, Event.closeE 3] B,
        hB2]
      simp [List.length_cons]
      omega
    · simp only [ProcTree.execCount]
      rw [wrapChild_execCount [Event.closeE 4, Event.dup2E 3 0, Event.closeE 3] B,
        hB3]
      simp [List.length_cons]
      omega
    · simp only [ProcTree.reapsAll]
      rw [wrapChild_reaps [Event.closeE 4, Event.dup2E 3 0, Event.closeE 3] B rfl,
        hB4]
      rfl

/-- Counterexample to C1 as stated: the three-stage pipeline `a | b | c`
forks 4 processes (two of the four are an intermediate orchestrator and its
stage), not 3. -/
theorem c1_counterexample :
    (execute_complex_command okEnv (pipelineOf [cmdA, cmdB, cmdC])).spawned = 4
    ∧ (4 : Nat) ≠ 3 :=
  ⟨rfl, by decide⟩

/-- Claim C1 as amended: executing the root node of an `N`-stage pipeline
(`N ≥ 2`) in the all-success environment creates exactly `N - 1` pipes and
spawns exactly `2 * (N - 1)` processes, of which exactly `N` exec the leaf
commands (the rest are intermediate orchestrators); every orchestrating
process waits for both of its children before finishing, so the root does not
return (with value 0) until every spawned process has exited. -/
theorem c1_pipeline_resource_counts (ss : List SimpleCommand)
    (h : 2 ≤ ss.length) :
    ((execute_complex_command okEnv (pipelineOf ss)).pipesCreated = ss.length - 1)
    ∧ ((execute_complex_command okEnv (pipelineOf ss)).spawned =
        2 * (ss.length - 1))
    ∧ ((execute_complex_command okEnv (pipelineOf ss)).execCount = ss.length)
    ∧ ((execute_complex_command okEnv (pipelineOf ss)).reapsAll = true)
    ∧ ((execute_complex_command okEnv (pipelineOf ss)).outcome = Outcome.ret 0) := by
  cases ss with
  | nil => exact absurd h (by simp)
  | cons s ts =>
    cases ts with
    | nil => exact absurd h (by simp)
    | cons t ts2 =>
      obtain ⟨h1, h2, h3, h4⟩ := pipeline_stats (t :: ts2) s
      have houtc : (execute_complex_command okEnv
          (pipelineOf (s :: t :: ts2))).outcome = Outcome.ret 0 := by
        have hpl : pipelineOf (s :: t :: ts2) =
            Command.complexCmd "|" (Command.simple s) (pipelineOf (t :: ts2)) := rfl
        rw [hpl, complex_ok_pipe_eq]
        rfl
      refine ⟨?_, ?_, ?_, h4, houtc⟩ <;>
        simp only [h1, h2, h3, List.length_cons] <;> omega

/-- Witness for C1 (amended): the two-stage pipeline `a | b` creates one
pipe, forks two processes, both of which exec, and both are collected. -/
theorem c1_witness :
    2 ≤ ([cmdA, cmdB] : List SimpleCommand).length
    ∧ (((execute_complex_command okEnv (pipelineOf [cmdA, cmdB])).pipesCreated =
          ([cmdA, cmdB] : List SimpleCommand).length - 1)
      ∧ ((execute_complex_command okEnv (pipelineOf [cmdA, cmdB])).spawned =
          2 * (([cmdA, cmdB] : List SimpleCommand).length - 1))
      ∧ ((execute_complex_command okEnv (pipelineOf [cmdA, cmdB])).execCount =
          ([cmdA, cmdB] : List SimpleCommand).length)
      ∧ ((execute_complex_command okEnv (pipelineOf [cmdA, cmdB])).reapsAll = true)
      ∧ ((execute_complex_command okEnv (pipelineOf [cmdA, cmdB])).outcome =
          Outcome.ret 0)) :=
  ⟨by decide, c1_pipeline_resource_counts [cmdA, cmdB] (by decide)⟩

/-! ## Claim C5 -/

/-- String length adds over appending. -/
theorem str_length_append (a b : String) : (a ++ b).length = a.length + b.length := by
  show (a.data ++ b.data).length = a.data.length + b.data.length
  exact List.length_append _ _

/-- An absolute working directory makes the composed path absolute. -/
theorem is_relative_append (d p : String) (habs : is_relative d = false) :
    is_relative (d ++ "/" ++ p) = false := by
  cases hd : d.data with
  | nil => simp [is_relative, hd] at habs
  | cons c cs =>
    have hdata : (d ++ "/" ++ p).data = c :: (cs ++ '/' :: p.data) := by
      rw [data_append, data_append, hd]
      simp
    rw [is_relative, hd] at habs
    rw [is_relative, hdata]
    exact habs

/-- A path that fits below the buffer bound is not truncated. -/
theorem cd_compose_of_fits (d p : String)
    (hfit : d.length + 1 + p.length ≤ MAX_DIRNAME - 1) :
    cd_compose d p = d ++ "/" ++ p := by
  unfold cd_compose
  dsimp only
  have htake : strTake p (MAX_DIRNAME - (d ++ "/").length - 1) = p := by
    unfold strTake
    have hlen : p.data.length ≤ MAX_DIRNAME - (d ++ "/").length - 1 := by
      rw [str_length_append]
      have h1 : ("/" : String).length = 1 := rfl
      rw [h1]
      have hM : MAX_DIRNAME = 100 := rfl
      have hp : p.data.length = p.length := rfl
      rw [hM] at hfit ⊢
      omega
    rw [List.take_of_length_le hlen]
  rw [htake]

/-- Counterexample to C5 as stated: from directory `/a`, `cd` on a
97-character relative name attempts `chdir` on the 99-character truncation of
the composed path, while `cd` on the full absolute path attempts `chdir` on
the full 100-character path — the two executions differ. -/
theorem c5_counterexample :
    execute_cd okEnv "/a" ["cd", longB] ≠
      execute_cd okEnv "/a" ["cd", "/a" ++ "/" ++ longB] := by
  decide

/-- Claim C5 as amended: `cd` with a relative path `p` from absolute working
directory `d` is equivalent to `cd` with the absolute path `d ++ "/" ++ p`,
provided `getcwd` succeeds (`d` plus terminator fits in `MAX_DIRNAME - 2`
bytes) and the composed path is not truncated (it fits in `MAX_DIRNAME - 1`
characters). -/
theorem c5_relative_cd_equiv (env : Env) (d p : String)
    (hrel : is_relative p = true) (habs : is_relative d = false)
    (hcwd : d.length + 1 ≤ MAX_DIRNAME - 2)
    (hfit : d.length + 1 + p.length ≤ MAX_DIRNAME - 1) :
    execute_cd env d ["cd", p] = execute_cd env d ["cd", d ++ "/" ++ p] := by
  have habs2 := is_relative_append d p habs
  have hcomp := cd_compose_of_fits d p hfit
  unfold execute_cd
  simp [List.get?, hrel, habs2, hcwd, hcomp]

/-- Witness for C5 (amended): `cd b` from `/a` equals `cd /a/b`. -/
theorem c5_witness :
    is_relative "b" = true ∧ is_relative "/a" = false
    ∧ "/a".length + 1 ≤ MAX_DIRNAME - 2
    ∧ "/a".length + 1 + "b".length ≤ MAX_DIRNAME - 1
    ∧ execute_cd okEnv "/a" ["cd", "b"] =
        execute_cd okEnv "/a" ["cd", "/a" ++ "/" ++ "b"] :=
  ⟨by decide, by decide, by decide, by decide,
   c5_relative_cd_equiv okEnv "/a" "b" (by decide) (by decide) (by decide)
     (by decide)⟩

/-! ## Claim C10 -/

/-- Claim C10: the composed `cd` path always fits, with its terminator, in
the 100-byte `MAX_DIRNAME` buffer (the bounded `strncat`s never write past
it); and when the working directory, separator and argument together exceed
the cap, the composed path is exactly the truncation of the full path to 99
characters, differs from the full path, and `execute_cd` silently attempts
`chdir` on that truncated path — its trace is the single `chdir` event, with
no truncation diagnostic. -/
theorem c10_cd_buffer_truncation :
    (∀ (d p : String), d.length + 1 ≤ MAX_DIRNAME - 2 →
        (cd_compose d p).length + 1 ≤ MAX_DIRNAME)
    ∧ (∀ (env : Env) (d p : String),
        is_relative p = true → d.length + 1 ≤ MAX_DIRNAME - 2 →
        MAX_DIRNAME - 1 < d.length + 1 + p.length →
          cd_compose d p = strTake (d ++ "/" ++ p) (MAX_DIRNAME - 1)
          ∧ cd_compose d p ≠ d ++ "/" ++ p
          ∧ execute_cd env d ["cd", p] =
              ⟨[Event.chdirE (cd_compose d p)],
               if env.chdirOk (cd_compose d p) then cd_compose d p else d,
               if env.chdirOk (cd_compose d p) then 0 else 1⟩) := by
  have hM : MAX_DIRNAME = 100 := rfl
  have hlen : ∀ (d p : String), (cd_compose d p).length =
      d.length + 1 + min (MAX_DIRNAME - (d.length + 1) - 1) p.length := by
    intro d p
    obtain ⟨ld⟩ := d
    obtain ⟨lp⟩ := p
    have hexp : (cd_compose ⟨ld⟩ ⟨lp⟩).length =
        ((ld ++ ['/']) ++ lp.take (MAX_DIRNAME - (ld ++ ['/']).length - 1)).length :=
      rfl
    rw [hexp]
    simp [List.length_append, List.length_take]
    omega
  constructor
  · intro d p h
    rw [hlen d p, hM] at *
    omega
  · intro env d p hrel hcwd hover
    have htr : cd_compose d p = strTake (d ++ "/" ++ p) (MAX_DIRNAME - 1) := by
      obtain ⟨ld⟩ := d
      obtain ⟨lp⟩ := p
      show String.mk ((ld ++ ['/']) ++ lp.take (MAX_DIRNAME - (ld ++ ['/']).length - 1)) =
        String.mk (((ld ++ ['/']) ++ lp).take (MAX_DIRNAME - 1))
      refine congrArg String.mk ?_
      rw [List.take_append_eq_append_take]
      have h1 : (ld ++ ['/']).length = ld.length + 1 := by
        simp [List.length_append]
      have h2 : (ld ++ ['/']).take (MAX_DIRNAME - 1) = ld ++ ['/'] := by
        refine List.take_of_length_le ?_
        rw [h1, hM]
        have : (String.mk ld).length = ld.length := rfl
        rw [hM] at hcwd
        omega
      rw [h2]
      have h3 : MAX_DIRNAME - (ld ++ ['/']).length - 1 =
          MAX_DIRNAME - 1 - (ld ++ ['/']).length := by
        omega
      rw [h3]
    refine ⟨htr, ?_, ?_⟩
    · intro heq
      have h1 := hlen d p
      rw [heq] at h1
      rw [str_length_append, str_length_append] at h1
      have h2 : ("/" : String).length = 1 := rfl
      rw [h2, hM] at h1
      rw [hM] at hcwd hover
      omega
    · unfold execute_cd
      simp [List.get?, hrel, hcwd]
      split_ifs <;> rfl

/-- Witness for C10: a 97-character name from `/a` composes to exactly 99
characters, a strict truncation of the 100-character full path, and the
`chdir` is attempted on it with no other event. -/
theorem c10_witness :
    ("/a".length + 1 ≤ MAX_DIRNAME - 2
      ∧ (cd_compose "/a" longB).length + 1 ≤ MAX_DIRNAME)
    ∧ (cd_compose "/a" longB = strTake ("/a" ++ "/" ++ longB) (MAX_DIRNAME - 1)
      ∧ cd_compose "/a" longB ≠ "/a" ++ "/" ++ longB
      ∧ execute_cd okEnv "/a" ["cd", longB] =
          ⟨[Event.chdirE (cd_compose "/a" longB)],
           if okEnv.chdirOk (cd_compose "/a" longB) then cd_compose "/a" longB
           else "/a",
           if okEnv.chdirOk (cd_compose "/a" longB) then 0 else 1⟩) :=
  ⟨⟨by decide, c10_cd_buffer_truncation.1 "/a" longB (by decide)⟩,
   c10_cd_buffer_truncation.2 okEnv "/a" longB (by decide) (by decide) (by decide)⟩

end MyShell
